import Mathlib

/-!
Verification development for the SaucerSwap HBAR-to-token plugin.

The TypeScript sources are shallowly embedded: pure helpers become Lean
functions, and the effectful orchestration (mirror-node HTTP lookups,
transaction submission through the external mode handler, the clock) is
modelled by threading an explicit oracle `World` that holds the response
each external call would produce, together with an explicit trace of the
effects the code performs, in program order.  Thrown JavaScript `Error`s
become `Except String` values carrying the error message.
-/

namespace SaucerSwap

/-- The ledger identities known to the Hedera SDK.  The plugin's constant
tables are populated for `mainnet` and `testnet` only. -/
inductive LedgerId where
  | mainnet
  | testnet
  | previewnet
  | localNode
deriving DecidableEq

/-- `LedgerIdToRouterContractID` from `constants.ts`. -/
def LedgerIdToRouterContractID : LedgerId → Option String
  | .testnet => some "0.0.19264"
  | .mainnet => some "0.0.3045981"
  | _ => none

/-- `LedgerIdToWHbarID` from `constants.ts`. -/
def LedgerIdToWHbarID : LedgerId → Option String
  | .testnet => some "0.0.15058"
  | .mainnet => some "0.0.1456986"
  | _ => none

/-- `DEFAULT_SWAP_GAS` from `constants.ts`. -/
def DEFAULT_SWAP_GAS : Nat := 400000

/-- `DEFAULT_DEADLINE_SECONDS` from `constants.ts`. -/
def DEFAULT_DEADLINE_SECONDS : Nat := 300

/-- `LedgerIdToBaseUrl` from `constants.ts`. -/
def LedgerIdToBaseUrl : LedgerId → Option String
  | .mainnet => some "https://mainnet-public.mirrornode.hedera.com/api/v1"
  | .testnet => some "https://testnet.mirrornode.hedera.com/api/v1"
  | _ => none

/-- An entity id `shard.realm.num`, as in the SDK's `TokenId`. -/
structure TokenId where
  shard : Nat
  realm : Nat
  num : Nat
deriving DecidableEq

/-- The numeric value of a decimal digit character. -/
def digitVal (c : Char) : Option Nat :=
  if 48 ≤ c.toNat ∧ c.toNat ≤ 57 then some (c.toNat - 48) else none

/-- Parse a non-empty all-digit character list as a decimal natural. -/
def parseNatAux : List Char → Nat → Option Nat
  | [], acc => some acc
  | c :: cs, acc =>
    match digitVal c with
    | some d => parseNatAux cs (acc * 10 + d)
    | none => none

/-- Parse a decimal natural from a string (empty and non-digit strings
fail). -/
def parseNat? (s : String) : Option Nat :=
  match s.data with
  | [] => none
  | l => parseNatAux l 0

/-- Split a character list at `'.'` separators. -/
def splitDot : List Char → List (List Char)
  | [] => [[]]
  | c :: cs =>
    match splitDot cs with
    | [] => [[]]
    | g :: gs => if c = '.' then [] :: g :: gs else (c :: g) :: gs

/-- `TokenId.fromString`: parse `"shard.realm.num"` with decimal
components; `none` models the SDK throwing on a malformed entity-id string
(the SDK's exact error message is not modelled). -/
def TokenId.fromString (s : String) : Option TokenId :=
  match splitDot s.data with
  | [a, b, c] =>
    match parseNat? (String.mk a), parseNat? (String.mk b), parseNat? (String.mk c) with
    | some sh, some r, some n => some ⟨sh, r, n⟩
    | _, _, _ => none
  | _ => none

/-- Lowercase hexadecimal rendering of a natural number. -/
def hexString (n : Nat) : String := (Nat.toDigits 16 n).asString

/-- Left-pad with `'0'` to 40 characters. -/
def padLeft40 (s : String) : String :=
  String.mk (List.replicate (40 - s.length) '0') ++ s

/-- `TokenId.toEvmAddress`: the 20-byte solidity-style address, big-endian
shard (top 4 bytes), realm (8 bytes), num (8 bytes), as 40 hex characters. -/
def TokenId.toEvmAddress (t : TokenId) : String :=
  padLeft40 (hexString (t.shard * 2 ^ 128 + t.realm * 2 ^ 64 + t.num))

/-- A JavaScript number produced by `Number(string)`: either a value or
`NaN` when the string does not parse as a number. -/
inductive JsNum where
  | nan
  | val (n : Nat)
deriving DecidableEq

/-- `Number(s)` restricted to the decimal naturals the mirror node emits:
a non-empty digit string yields its value, anything else yields `NaN`. -/
def jsNumber (s : String) : JsNum :=
  match parseNat? s with
  | some n => .val n
  | none => .nan

/-- JavaScript falsiness of an optional string field: `undefined` and the
empty string are falsy, every other string is truthy. -/
def strFalsy : Option String → Bool
  | none => true
  | some s => s == ""

/-- An HTTP response as the code observes it: `ok`/`status` from `fetch`,
`body` the raw text (read only on failure), `json` the parsed body. -/
structure HttpResp (α : Type) where
  ok : Bool
  status : Nat
  body : String
  json : α
deriving DecidableEq

/-- ASCII whitespace, sufficient for the response bodies modelled here. -/
def isSpaceChar (c : Char) : Bool :=
  c = ' ' || c = '\t' || c = '\n' || c = '\r'

/-- JavaScript `String.prototype.trim` over ASCII whitespace. -/
def jsTrim (s : String) : String :=
  String.mk (((s.data.dropWhile isSpaceChar).reverse.dropWhile isSpaceChar).reverse)

/-- JavaScript `.trim().slice(0, 200)` applied to a response body. -/
def jsSlice200 (s : String) : String := String.mk ((jsTrim s).data.take 200)

/-- The ` body` suffix appended to mirror-node error messages: a space plus
the trimmed body truncated to 200 characters, or nothing when empty. -/
def errorDetails (body : String) : String :=
  let eb := jsSlice200 body
  if eb == "" then "" else " " ++ eb

/-- The parsed body of `GET {base}/tokens/{id}`, fields as declared by
`MirrorNodeTokenInfo` in `utils.ts`. -/
structure MirrorNodeTokenInfo where
  type : Option String
  decimals : Option String
deriving DecidableEq

/-- The value `fetchTokenInfoFromMirrorNode` resolves with. -/
structure TokenInfo where
  type : Option String
  decimals : JsNum
deriving DecidableEq

/-- `fetchTokenInfoFromMirrorNode` from `utils.ts`: reject a non-ok
response with the truncated body attached; reject a falsy (`undefined` or
empty) `decimals` field; otherwise coerce `decimals` with `Number`. -/
def fetchTokenInfoFromMirrorNode (resp : HttpResp MirrorNodeTokenInfo) :
    Except String TokenInfo :=
  if resp.ok = false then
    .error ("Mirror Node token lookup failed (" ++ toString resp.status ++ ")."
      ++ errorDetails resp.body)
  else if strFalsy resp.json.decimals then
    .error "Mirror Node token info missing numeric decimals."
  else
    .ok { type := resp.json.type, decimals := jsNumber (resp.json.decimals.getD "") }

/-- One entry of the relationship lists returned by
`GET {base}/accounts/{id}/tokens`; `token_id` may be absent or null. -/
structure RelEntry where
  token_id : Option String
deriving DecidableEq

/-- `MirrorNodeAccountTokensResponse` from `utils.ts`: the body may carry a
`tokens` list, a `balances` list, both, or neither. -/
structure MirrorNodeAccountTokensResponse where
  tokens : Option (List RelEntry)
  balances : Option (List RelEntry)
deriving DecidableEq

/-- `MirrorNodeAccountResponse` from `utils.ts`. -/
structure MirrorNodeAccountResponse where
  max_automatic_token_associations : Option Int
deriving DecidableEq

/-- `fetchFromMirrorNode` from `utils.ts`: a non-ok response raises with
the trimmed, truncated body attached; otherwise the parsed body comes back. -/
def fetchFromMirrorNode {α : Type} (resp : HttpResp α) : Except String α :=
  if resp.ok = false then
    .error ("Mirror Node request failed (" ++ toString resp.status ++ ")."
      ++ errorDetails resp.body)
  else
    .ok resp.json

/-- The `Array.isArray` cascade in `mirrorNodeAccountHasToken`: prefer the
`tokens` list, fall back to `balances`, default to the empty list. -/
def selectRelationships (d : MirrorNodeAccountTokensResponse) : List RelEntry :=
  match d.tokens with
  | some l => l
  | none =>
    match d.balances with
    | some l => l
    | none => []

/-- `relationships.some((entry) => entry.token_id === tokenId)`. -/
def relationshipsHaveToken (l : List RelEntry) (tokenId : String) : Bool :=
  l.any fun e => decide (e.token_id = some tokenId)

/-- `mirrorNodeAccountHasToken` from `utils.ts`, applied to the response
the oracle supplies for the account-tokens URL. -/
def mirrorNodeAccountHasToken (resp : HttpResp MirrorNodeAccountTokensResponse)
    (tokenId : String) : Except String Bool :=
  (fetchFromMirrorNode resp).map fun d =>
    relationshipsHaveToken (selectRelationships d) tokenId

/-- `mirrorNodeAccountMaxAutoAssociations` from `utils.ts`:
`typeof value === "number" ? value : 0`. -/
def mirrorNodeAccountMaxAutoAssociations (resp : HttpResp MirrorNodeAccountResponse) :
    Except String Int :=
  (fetchFromMirrorNode resp).map fun d =>
    d.max_automatic_token_associations.getD 0

/-- `AgentMode` from the hedera-agent-kit: autonomous submit, or return
unsigned bytes. -/
inductive AgentMode where
  | autonomous
  | returnBytes
deriving DecidableEq

/-- The slice of the kit's `Context` the plugin reads: the operating mode
and the default account. -/
structure Context where
  mode : AgentMode
  accountId : Option String
deriving DecidableEq

/-- The slice of the SDK `Client` the plugin reads: the optional ledger id. -/
structure Client where
  ledgerId : Option LedgerId
deriving DecidableEq

/-- `requireClientLedger` from `utils.ts`. -/
def requireClientLedger (c : Client) : Except String LedgerId :=
  match c.ledgerId with
  | none => .error "Unable to determine Hedera network from client."
  | some l => .ok l

/-- What the external `handleTransaction` resolves with: a structured
executed result (the shape with a `raw.status` field) or the unsigned-bytes
result of RETURN_BYTES mode. -/
inductive TxModeResult where
  | executed (status : String)
  | bytes
deriving DecidableEq

/-- The fields the code sets on a `TokenAssociateTransaction`. -/
structure TokenAssociateTransaction where
  accountId : String
  tokenIds : List String
  memo : String
deriving DecidableEq

/-- One ABI parameter as pushed onto `ContractFunctionParameters`, in
positional order. -/
inductive CFParam where
  | uint256 (n : Nat)
  | addressArray (l : List String)
  | address (a : String)
deriving DecidableEq

/-- The fields the code sets on a `ContractExecuteTransaction`; the payable
amount is in whole HBAR as passed to `new Hbar(...)`. -/
structure ContractExecuteTransaction where
  contractId : String
  gas : Nat
  payableAmount : Rat
  functionName : String
  functionParams : List CFParam
deriving DecidableEq

/-- A transaction built by the plugin and handed to `handleTransaction`. -/
inductive BuiltTx where
  | associate (t : TokenAssociateTransaction)
  | contractExec (t : ContractExecuteTransaction)
deriving DecidableEq

/-- An observable effect of the orchestration, recorded in program order:
an HTTP GET, a transaction handed to the mode handler, or the
EVM-address population round-trip. -/
inductive Effect where
  | httpGet (url : String)
  | handleTx (tx : BuiltTx)
  | populateEvmAddress (accountId : String)
deriving DecidableEq

/-- The transactions a trace handed to the mode handler. -/
def builtTxs (effs : List Effect) : List BuiltTx :=
  effs.filterMap fun e =>
    match e with
    | .handleTx t => some t
    | _ => none

/-- URL of `GET {base}/tokens/{tokenId}`. -/
def tokensInfoUrl (baseUrl tokenId : String) : String :=
  baseUrl ++ "/tokens/" ++ tokenId

/-- URL of `GET {base}/accounts/{accountId}/tokens?token.id={tokenId}&limit=1`. -/
def accountTokensUrl (baseUrl accountId tokenId : String) : String :=
  baseUrl ++ "/accounts/" ++ accountId ++ "/tokens?token.id=" ++ tokenId ++ "&limit=1"

/-- URL of `GET {base}/accounts/{accountId}`. -/
def accountInfoUrl (baseUrl accountId : String) : String :=
  baseUrl ++ "/accounts/" ++ accountId

/-- The oracle for one tool invocation: the response each external call
would produce, and the clock.  `assocTxResult` / `swapTxResult` model
`handleTransaction` (which may itself throw), `evmAddress` models
`populateAccountEvmAddress`, `nowMs` models `Date.now()`. -/
structure World where
  tokenInfoResp : HttpResp MirrorNodeTokenInfo
  accountTokensResp : HttpResp MirrorNodeAccountTokensResponse
  accountResp : HttpResp MirrorNodeAccountResponse
  assocTxResult : Except String TxModeResult
  swapTxResult : Except String TxModeResult
  evmAddress : Except String String
  nowMs : Nat

/-- `ensureTokenAssociation` from `utils.ts`.  Returns the outcome together
with the trace of effects: the two mirror lookups are issued together via
`Promise.all` (recorded in array order), and the association transaction is
built and handed over only when association is needed and the mode is not
RETURN_BYTES. -/
def ensureTokenAssociation (w : World) (client : Client) (context : Context)
    (accountId : String) (tokenId : String) : Except String Unit × List Effect :=
  match requireClientLedger client with
  | .error e => (.error e, [])
  | .ok ledger =>
    match LedgerIdToBaseUrl ledger with
    | none => (.error "Unsupported Hedera network for Mirror Node lookup.", [])
    | some baseUrl =>
      let effs := [Effect.httpGet (accountTokensUrl baseUrl accountId tokenId),
                   Effect.httpGet (accountInfoUrl baseUrl accountId)]
      match mirrorNodeAccountHasToken w.accountTokensResp tokenId,
            mirrorNodeAccountMaxAutoAssociations w.accountResp with
      | .error e, _ => (.error e, effs)
      | .ok _, .error e => (.error e, effs)
      | .ok isAssociated, .ok maxAutoAssociations =>
        if isAssociated || decide (maxAutoAssociations = -1) then
          (.ok (), effs)
        else if context.mode = AgentMode.returnBytes then
          (.error "Recipient account lacks token association. Please associate the token before requesting RETURN_BYTES.", effs)
        else
          let associateTx : TokenAssociateTransaction :=
            { accountId := accountId, tokenIds := [tokenId],
              memo := "Auto-associate for SaucerSwap" }
          let effs := effs ++ [Effect.handleTx (.associate associateTx)]
          match w.assocTxResult with
          | .error e => (.error e, effs)
          | .ok (.executed status) =>
            if status ≠ "SUCCESS" then
              (.error ("Token association failed: " ++ status), effs)
            else
              (.ok (), effs)
          | .ok .bytes =>
            (.error "Unexpected RETURN_BYTES result while associating token.", effs)

/-- `resolveSwapPath` from `utils.ts`: `[WHBAR EVM address, token EVM address]`. -/
def resolveSwapPath (ledger : LedgerId) (tokenId : String) :
    Except String (List String) :=
  match LedgerIdToWHbarID ledger with
  | none => .error "Unsupported Hedera network for WHBAR mapping."
  | some whbarId =>
    match TokenId.fromString whbarId, TokenId.fromString tokenId with
    | some w, some t => .ok [w.toEvmAddress, t.toEvmAddress]
    | _, _ => .error "Invalid entity id string."

/-- Modelled from the spec: `AccountResolver.resolveAccount` of the
external hedera-agent-kit is not part of this repository; per the spec it
takes the explicit `recipientAccountId` when supplied, otherwise the
caller-context default account, and fails when neither is available. -/
def resolveAccount (paramAccount : Option String) (context : Context) :
    Except String String :=
  match paramAccount with
  | some a => .ok a
  | none =>
    match context.accountId with
    | some a => .ok a
    | none => .error "Unable to determine a default account."

/-- The guard `tokenInfo.type && tokenInfo.type !== "FUNGIBLE_COMMON"`:
a truthy (present and non-empty) declared type that differs from the
fungible marker. -/
def notFungibleGuard : Option String → Bool
  | none => false
  | some t => !(t == "") && !(t == "FUNGIBLE_COMMON")

/-- The parameters of the swap tool after schema validation. -/
structure SwapHbarForTokenParams where
  hbarAmount : Rat
  tokenId : String
  recipientAccountId : Option String
deriving DecidableEq

/-- What the tool's `execute` returns: a bare string, the structured
`{ raw: { error: msg }, humanMessage: msg }` failure shape produced by the
catch block, or the mode handler's result passed through unchanged. -/
inductive ToolResult where
  | plain (s : String)
  | errorResult (msg : String)
  | passthrough (r : TxModeResult)
deriving DecidableEq

/-- The body of the swap tool's `execute` (the inside of its `try`), from
`swap-hbar-for-token.ts`, with the trace of effects in program order.
An `Except.error` is an exception travelling toward the catch block. -/
def swapOrchestrate (w : World) (client : Client) (context : Context)
    (params : SwapHbarForTokenParams) : Except String ToolResult × List Effect :=
  match requireClientLedger client with
  | .error e => (.error e, [])
  | .ok ledger =>
    match LedgerIdToRouterContractID ledger with
    | none => (.ok (.plain "Unsupported Hedera network for SaucerSwap router."), [])
    | some routerId =>
      match LedgerIdToBaseUrl ledger with
      | none => (.error "Unsupported Hedera network for Mirror Node lookup.", [])
      | some mirrorNodeBaseUrl =>
        let effs := [Effect.httpGet (tokensInfoUrl mirrorNodeBaseUrl params.tokenId)]
        match fetchTokenInfoFromMirrorNode w.tokenInfoResp with
        | .error e => (.error e, effs)
        | .ok tokenInfo =>
          if notFungibleGuard tokenInfo.type then
            (.ok (.plain "This token is not a Fungible Token"), effs)
          else
            match resolveAccount params.recipientAccountId context with
            | .error e => (.error e, effs)
            | .ok recipientAccountId =>
              match ensureTokenAssociation w client context recipientAccountId params.tokenId with
              | (.error e, effs2) => (.error e, effs ++ effs2)
              | (.ok _, effs2) =>
                let effs := effs ++ effs2
                match resolveSwapPath ledger params.tokenId with
                | .error e => (.error e, effs)
                | .ok path =>
                  let deadline := w.nowMs / 1000 + DEFAULT_DEADLINE_SECONDS
                  let effs := effs ++ [Effect.populateEvmAddress recipientAccountId]
                  match w.evmAddress with
                  | .error e => (.error e, effs)
                  | .ok recipientAccountEvmAddress =>
                    let functionParams : List CFParam :=
                      [.uint256 0, .addressArray path,
                       .address recipientAccountEvmAddress, .uint256 deadline]
                    let tx : ContractExecuteTransaction :=
                      { contractId := routerId, gas := DEFAULT_SWAP_GAS,
                        payableAmount := params.hbarAmount,
                        functionName := "swapExactETHForTokens",
                        functionParams := functionParams }
                    let effs := effs ++ [Effect.handleTx (.contractExec tx)]
                    match w.swapTxResult with
                    | .error e => (.error e, effs)
                    | .ok result => (.ok (.passthrough result), effs)

/-- The swap tool's `execute` with its catch block: any exception from the
orchestration is converted to the structured error result. -/
def swapHbarForTokenExecute (w : World) (client : Client) (context : Context)
    (params : SwapHbarForTokenParams) : ToolResult × List Effect :=
  match swapOrchestrate w client context params with
  | (.ok r, effs) => (r, effs)
  | (.error msg, effs) => (.errorResult msg, effs)

/-- Whether an `Except` is a success (used to state when a lookup raises). -/
def isOkB {α : Type} : Except String α → Bool
  | .ok _ => true
  | .error _ => false

/-- C2: if the relationship lookup reports the account already holds the
token, or the account's maximum automatic-association value is -1, then
`ensureTokenAssociation` returns normally and hands no association
transaction to the mode handler, whatever the other lookup reported. -/
theorem C2_no_association_when_associated_or_unlimited
    (w : World) (client : Client) (context : Context)
    (accountId tokenId : String) (ledger : LedgerId) (baseUrl : String)
    (hLedger : client.ledgerId = some ledger)
    (hBase : LedgerIdToBaseUrl ledger = some baseUrl)
    (hTokOk : w.accountTokensResp.ok = true)
    (hAccOk : w.accountResp.ok = true)
    (hOr : relationshipsHaveToken (selectRelationships w.accountTokensResp.json) tokenId = true
        ∨ w.accountResp.json.max_automatic_token_associations.getD 0 = -1) :
    (ensureTokenAssociation w client context accountId tokenId).1 = .ok ()
      ∧ builtTxs (ensureTokenAssociation w client context accountId tokenId).2 = [] := by
  unfold ensureTokenAssociation
  rcases hOr with h | h <;>
    simp [requireClientLedger, hLedger, hBase, mirrorNodeAccountHasToken,
      mirrorNodeAccountMaxAutoAssociations, fetchFromMirrorNode, Except.map, hTokOk, hAccOk,
      h, builtTxs]

/-- Concrete world for C2: the account already holds `0.0.12345` and its
automatic-association ceiling is 0. -/
def worldC2 : World :=
  ⟨⟨true, 200, "", ⟨some "FUNGIBLE_COMMON", some "8"⟩⟩,
   ⟨true, 200, "", ⟨some [⟨some "0.0.12345"⟩], none⟩⟩,
   ⟨true, 200, "", ⟨some 0⟩⟩,
   .ok (.executed "SUCCESS"), .ok (.executed "SUCCESS"),
   .ok "00000000000000000000000000000000000004d2", 1700000000000⟩

/-- Witness for C2 at a concrete world: already associated, ceiling 0. -/
theorem C2_witness :
    (ensureTokenAssociation worldC2 ⟨some .testnet⟩ ⟨.autonomous, none⟩ "0.0.5005" "0.0.12345").1 = .ok ()
      ∧ builtTxs (ensureTokenAssociation worldC2 ⟨some .testnet⟩ ⟨.autonomous, none⟩ "0.0.5005" "0.0.12345").2 = [] :=
  C2_no_association_when_associated_or_unlimited worldC2 ⟨some .testnet⟩ ⟨.autonomous, none⟩
    "0.0.5005" "0.0.12345" .testnet "https://testnet.mirrornode.hedera.com/api/v1"
    rfl rfl rfl rfl (Or.inl rfl)

/-- C3: when the account is not associated, the ceiling is not -1 and the
mode is RETURN_BYTES, `ensureTokenAssociation` raises the
association-required error and no association transaction is built. -/
theorem C3_return_bytes_raises_association_required
    (w : World) (client : Client) (context : Context)
    (accountId tokenId : String) (ledger : LedgerId) (baseUrl : String)
    (hLedger : client.ledgerId = some ledger)
    (hBase : LedgerIdToBaseUrl ledger = some baseUrl)
    (hTokOk : w.accountTokensResp.ok = true)
    (hAccOk : w.accountResp.ok = true)
    (hNot : relationshipsHaveToken (selectRelationships w.accountTokensResp.json) tokenId = false)
    (hMax : w.accountResp.json.max_automatic_token_associations.getD 0 ≠ -1)
    (hMode : context.mode = AgentMode.returnBytes) :
    (ensureTokenAssociation w client context accountId tokenId).1 =
      .error "Recipient account lacks token association. Please associate the token before requesting RETURN_BYTES."
      ∧ builtTxs (ensureTokenAssociation w client context accountId tokenId).2 = [] := by
  unfold ensureTokenAssociation
  simp [requireClientLedger, hLedger, hBase, mirrorNodeAccountHasToken,
    mirrorNodeAccountMaxAutoAssociations, fetchFromMirrorNode, Except.map, hTokOk, hAccOk,
    hNot, hMax, hMode, builtTxs]

/-- Concrete world for C3: empty relationship list, ceiling 0. -/
def worldC3 : World :=
  ⟨⟨true, 200, "", ⟨some "FUNGIBLE_COMMON", some "8"⟩⟩,
   ⟨true, 200, "", ⟨some [], none⟩⟩,
   ⟨true, 200, "", ⟨some 0⟩⟩,
   .ok (.executed "SUCCESS"), .ok (.executed "SUCCESS"),
   .ok "00000000000000000000000000000000000004d2", 1700000000000⟩

/-- Witness for C3 at a concrete world in RETURN_BYTES mode. -/
theorem C3_witness :
    (ensureTokenAssociation worldC3 ⟨some .testnet⟩ ⟨.returnBytes, none⟩ "0.0.5005" "0.0.12345").1 =
      .error "Recipient account lacks token association. Please associate the token before requesting RETURN_BYTES."
      ∧ builtTxs (ensureTokenAssociation worldC3 ⟨some .testnet⟩ ⟨.returnBytes, none⟩ "0.0.5005" "0.0.12345").2 = [] :=
  C3_return_bytes_raises_association_required worldC3 ⟨some .testnet⟩ ⟨.returnBytes, none⟩
    "0.0.5005" "0.0.12345" .testnet "https://testnet.mirrornode.hedera.com/api/v1"
    rfl rfl rfl rfl rfl (by decide) rfl

/-- C10: for a successful relationship-lookup response, the function
returns true exactly when the selected list has an entry with the queried
token id; a present `tokens` list is always the selected one; and a body
with neither list yields `false` without raising. -/
theorem C10_accountHasToken_spec
    (resp : HttpResp MirrorNodeAccountTokensResponse) (tokenId : String)
    (hOk : resp.ok = true) :
    (mirrorNodeAccountHasToken resp tokenId = .ok true ↔
       ∃ e ∈ selectRelationships resp.json, e.token_id = some tokenId)
    ∧ (∀ l, resp.json.tokens = some l → selectRelationships resp.json = l)
    ∧ (resp.json.tokens = none → resp.json.balances = none →
        mirrorNodeAccountHasToken resp tokenId = .ok false) := by
  refine ⟨?_, ?_, ?_⟩
  · simp [mirrorNodeAccountHasToken, fetchFromMirrorNode, Except.map, hOk,
      relationshipsHaveToken, List.any_eq_true]
  · intro l hl
    simp [selectRelationships, hl]
  · intro ht hb
    simp [mirrorNodeAccountHasToken, fetchFromMirrorNode, Except.map, hOk,
      selectRelationships, ht, hb, relationshipsHaveToken]

/-- Witness for C10: a 2xx response carrying both lists, where only the
`tokens` list holds the queried id. -/
theorem C10_witness :
    (mirrorNodeAccountHasToken ⟨true, 200, "", ⟨some [⟨some "0.0.12345"⟩], some []⟩⟩ "0.0.12345" = .ok true ↔
       ∃ e ∈ selectRelationships (⟨some [⟨some "0.0.12345"⟩], some []⟩ : MirrorNodeAccountTokensResponse),
         e.token_id = some "0.0.12345")
    ∧ (∀ l, (⟨some [⟨some "0.0.12345"⟩], some []⟩ : MirrorNodeAccountTokensResponse).tokens = some l →
        selectRelationships ⟨some [⟨some "0.0.12345"⟩], some []⟩ = l)
    ∧ ((⟨some [⟨some "0.0.12345"⟩], some []⟩ : MirrorNodeAccountTokensResponse).tokens = none →
        (⟨some [⟨some "0.0.12345"⟩], some []⟩ : MirrorNodeAccountTokensResponse).balances = none →
        mirrorNodeAccountHasToken ⟨true, 200, "", ⟨some [⟨some "0.0.12345"⟩], some []⟩⟩ "0.0.12345" = .ok false) :=
  C10_accountHasToken_spec ⟨true, 200, "", ⟨some [⟨some "0.0.12345"⟩], some []⟩⟩ "0.0.12345" rfl

/-- C8: for a supported network and a well-formed token id,
`resolveSwapPath` yields exactly the two-element path whose head is the
EVM form of that network's configured WHBAR id; a network with no
configured WHBAR id fails with the unsupported-network error; and the
resolver is a pure function (the embedding is a Lean function, so equal
inputs give equal outputs). -/
theorem C8_resolveSwapPath_spec
    (l lu : LedgerId) (tokenId whbar : String) (tt : TokenId)
    (hW : LedgerIdToWHbarID l = some whbar)
    (hT : TokenId.fromString tokenId = some tt)
    (hU : LedgerIdToWHbarID lu = none) :
    (∃ wt, TokenId.fromString whbar = some wt ∧
       resolveSwapPath l tokenId = .ok [wt.toEvmAddress, tt.toEvmAddress])
    ∧ resolveSwapPath lu tokenId = .error "Unsupported Hedera network for WHBAR mapping."
    ∧ resolveSwapPath l tokenId = resolveSwapPath l tokenId := by
  refine ⟨?_, ?_, rfl⟩
  · cases l with
    | mainnet =>
      simp only [LedgerIdToWHbarID, Option.some.injEq] at hW
      subst hW
      refine ⟨⟨0, 0, 1456986⟩, rfl, ?_⟩
      simp only [resolveSwapPath, LedgerIdToWHbarID]
      rw [show TokenId.fromString "0.0.1456986" = some ⟨0, 0, 1456986⟩ from rfl, hT]
    | testnet =>
      simp only [LedgerIdToWHbarID, Option.some.injEq] at hW
      subst hW
      refine ⟨⟨0, 0, 15058⟩, rfl, ?_⟩
      simp only [resolveSwapPath, LedgerIdToWHbarID]
      rw [show TokenId.fromString "0.0.15058" = some ⟨0, 0, 15058⟩ from rfl, hT]
    | previewnet => simp [LedgerIdToWHbarID] at hW
    | localNode => simp [LedgerIdToWHbarID] at hW
  · simp [resolveSwapPath, hU]

/-- Witness for C8: testnet with token `0.0.12345`, previewnet as the
unconfigured network. -/
theorem C8_witness :
    (∃ wt, TokenId.fromString "0.0.15058" = some wt ∧
       resolveSwapPath .testnet "0.0.12345" =
         .ok [wt.toEvmAddress, TokenId.toEvmAddress ⟨0, 0, 12345⟩])
    ∧ resolveSwapPath .previewnet "0.0.12345" =
        .error "Unsupported Hedera network for WHBAR mapping."
    ∧ resolveSwapPath .testnet "0.0.12345" = resolveSwapPath .testnet "0.0.12345" :=
  C8_resolveSwapPath_spec .testnet .previewnet "0.0.12345" "0.0.15058" ⟨0, 0, 12345⟩
    rfl rfl rfl

/-- Counterexample for C7: a 2xx response whose `decimals` field is the
non-numeric string "abc" is not rejected; the lookup returns it with a
NaN decimals value, although the claim says such a body is rejected as
malformed rather than returned. -/
theorem C7_counterexample_nonnumeric_decimals_accepted :
    jsNumber "abc" = JsNum.nan
    ∧ fetchTokenInfoFromMirrorNode ⟨true, 200, "", ⟨some "FUNGIBLE_COMMON", some "abc"⟩⟩
        = .ok ⟨some "FUNGIBLE_COMMON", JsNum.nan⟩ := ⟨rfl, rfl⟩

/-- C7 as amended: `fetchTokenInfoFromMirrorNode` raises exactly when the
HTTP response is not successful or the `decimals` field is absent or
empty (a present non-numeric string passes the check and yields NaN); a
non-2xx response raises with the status and the trimmed body truncated to
at most 200 characters attached. -/
theorem C7_amended_lookup_failure_condition (resp : HttpResp MirrorNodeTokenInfo) :
    (isOkB (fetchTokenInfoFromMirrorNode resp)
       = (resp.ok && !(strFalsy resp.json.decimals)))
    ∧ (resp.ok = false →
        fetchTokenInfoFromMirrorNode resp =
          .error ("Mirror Node token lookup failed (" ++ toString resp.status ++ ")."
            ++ errorDetails resp.body))
    ∧ (jsSlice200 resp.body).length ≤ 200 := by
  refine ⟨?_, ?_, ?_⟩
  · rcases hok : resp.ok <;>
      rcases hd : strFalsy resp.json.decimals <;>
        simp [fetchTokenInfoFromMirrorNode, isOkB, hok, hd]
  · intro h
    simp [fetchTokenInfoFromMirrorNode, h]
  · have h : (jsSlice200 resp.body).length = ((jsTrim resp.body).data.take 200).length := rfl
    rw [h, List.length_take]
    exact Nat.min_le_left _ _

/-- Witness for C7's amended statement at a concrete failing response. -/
theorem C7_witness :
    (isOkB (fetchTokenInfoFromMirrorNode ⟨false, 404, " not found ", ⟨none, none⟩⟩)
       = ((⟨false, 404, " not found ", ⟨none, none⟩⟩ : HttpResp MirrorNodeTokenInfo).ok
           && !(strFalsy (⟨false, 404, " not found ", ⟨none, none⟩⟩ : HttpResp MirrorNodeTokenInfo).json.decimals)))
    ∧ ((⟨false, 404, " not found ", ⟨none, none⟩⟩ : HttpResp MirrorNodeTokenInfo).ok = false →
        fetchTokenInfoFromMirrorNode ⟨false, 404, " not found ", ⟨none, none⟩⟩ =
          .error ("Mirror Node token lookup failed ("
            ++ toString (⟨false, 404, " not found ", ⟨none, none⟩⟩ : HttpResp MirrorNodeTokenInfo).status ++ ")."
            ++ errorDetails (⟨false, 404, " not found ", ⟨none, none⟩⟩ : HttpResp MirrorNodeTokenInfo).body))
    ∧ (jsSlice200 (⟨false, 404, " not found ", ⟨none, none⟩⟩ : HttpResp MirrorNodeTokenInfo).body).length ≤ 200 :=
  C7_amended_lookup_failure_condition ⟨false, 404, " not found ", ⟨none, none⟩⟩

/-- C6: the tool boundary catches every exception of the orchestration and
converts it into the structured error result, and otherwise passes the
orchestration's outcome through; `swapHbarForTokenExecute` is total, so no
exception ever reaches the host. -/
theorem C6_all_errors_caught_at_boundary
    (w : World) (client : Client) (context : Context) (params : SwapHbarForTokenParams) :
    (∃ e, (swapOrchestrate w client context params).1 = .error e
        ∧ (swapHbarForTokenExecute w client context params).1 = .errorResult e)
    ∨ (∃ r, (swapOrchestrate w client context params).1 = .ok r
        ∧ (swapHbarForTokenExecute w client context params).1 = r) := by
  unfold swapHbarForTokenExecute
  rcases h : swapOrchestrate w client context params with ⟨res, effs⟩
  cases res with
  | error e => exact .inl ⟨e, by simp [h], by simp [h]⟩
  | ok r => exact .inr ⟨r, by simp [h], by simp [h]⟩

/-- Any concrete world; the unsupported-network paths never consult it. -/
def worldC4 : World :=
  ⟨⟨true, 200, "", ⟨some "FUNGIBLE_COMMON", some "8"⟩⟩,
   ⟨true, 200, "", ⟨some [], none⟩⟩,
   ⟨true, 200, "", ⟨some 0⟩⟩,
   .ok (.executed "SUCCESS"), .ok (.executed "SUCCESS"),
   .ok "00000000000000000000000000000000000004d2", 1700000000000⟩

/-- Counterexample for C4: on the unsupported `previewnet`, the Swap
Tool's router lookup does not fail with an error at all — the tool
returns the bare string outcome (a normal result, not the structured
error shape the catch block produces) with an empty effect trace. -/
theorem C4_counterexample_router_lookup_returns_plain_string :
    swapHbarForTokenExecute worldC4 ⟨some .previewnet⟩ ⟨.autonomous, some "0.0.5005"⟩
        ⟨1, "0.0.12345", none⟩
      = (.plain "Unsupported Hedera network for SaucerSwap router.", []) := rfl

/-- C4 as amended: for a network outside the two configured ones,
`resolveSwapPath` and the Association Guard's base-URL lookup raise their
unsupported-network errors, while the Swap Tool's router lookup returns
the bare string "Unsupported Hedera network for SaucerSwap router."
instead of raising; in all three cases the effect trace is empty, so no
network call is performed. -/
theorem C4_amended_unsupported_network_resolvers
    (l : LedgerId) (hm : l ≠ LedgerId.mainnet) (ht : l ≠ LedgerId.testnet)
    (tokenId accountId : String) (w : World) (context : Context)
    (params : SwapHbarForTokenParams) :
    resolveSwapPath l tokenId = .error "Unsupported Hedera network for WHBAR mapping."
    ∧ ensureTokenAssociation w ⟨some l⟩ context accountId tokenId
        = (.error "Unsupported Hedera network for Mirror Node lookup.", [])
    ∧ swapHbarForTokenExecute w ⟨some l⟩ context params
        = (.plain "Unsupported Hedera network for SaucerSwap router.", []) := by
  cases l with
  | mainnet => exact absurd rfl hm
  | testnet => exact absurd rfl ht
  | previewnet => exact ⟨rfl, rfl, rfl⟩
  | localNode => exact ⟨rfl, rfl, rfl⟩

/-- Witness for C4's amended statement at `previewnet`. -/
theorem C4_witness :
    resolveSwapPath .previewnet "0.0.12345"
        = .error "Unsupported Hedera network for WHBAR mapping."
    ∧ ensureTokenAssociation worldC4 ⟨some .previewnet⟩ ⟨.autonomous, none⟩ "0.0.5005" "0.0.12345"
        = (.error "Unsupported Hedera network for Mirror Node lookup.", [])
    ∧ swapHbarForTokenExecute worldC4 ⟨some .previewnet⟩ ⟨.autonomous, none⟩
        ⟨1, "0.0.12345", none⟩
        = (.plain "Unsupported Hedera network for SaucerSwap router.", []) :=
  C4_amended_unsupported_network_resolvers .previewnet (by decide) (by decide)
    "0.0.12345" "0.0.5005" worldC4 ⟨.autonomous, none⟩ ⟨1, "0.0.12345", none⟩

/-- World for C5's counterexample: the token descriptor's declared type is
the present-but-empty string, which differs from "FUNGIBLE_COMMON". -/
def worldC5 : World :=
  ⟨⟨true, 200, "", ⟨some "", some "8"⟩⟩,
   ⟨true, 200, "", ⟨some [⟨some "0.0.12345"⟩], none⟩⟩,
   ⟨true, 200, "", ⟨some 0⟩⟩,
   .ok (.executed "SUCCESS"), .ok (.executed "SUCCESS"),
   .ok "00000000000000000000000000000000000004d2", 1700000000000⟩

/-- Counterexample for C5: with a declared type that is present (the empty
string) and differs from the fungible marker, the tool does not return the
"not a Fungible Token" outcome and does perform further network calls
(the JavaScript guard tests truthiness, so an empty type falls through). -/
theorem C5_counterexample_empty_type_falls_through :
    worldC5.tokenInfoResp.json.type = some ""
    ∧ (swapHbarForTokenExecute worldC5 ⟨some .testnet⟩ ⟨.autonomous, some "0.0.5005"⟩
         ⟨1, "0.0.12345", none⟩).1 ≠ .plain "This token is not a Fungible Token"
    ∧ (swapHbarForTokenExecute worldC5 ⟨some .testnet⟩ ⟨.autonomous, some "0.0.5005"⟩
         ⟨1, "0.0.12345", none⟩).2
        ≠ [Effect.httpGet (tokensInfoUrl "https://testnet.mirrornode.hedera.com/api/v1" "0.0.12345")] := by
  refine ⟨rfl, ?_, ?_⟩ <;> decide

/-- C5 as amended: if the fetched descriptor's declared type is present,
non-empty and differs from "FUNGIBLE_COMMON", the tool returns the bare
"This token is not a Fungible Token" outcome and the trace holds only the
token-info fetch: no association check and no transaction build. -/
theorem C5_amended_nonempty_type_short_circuits
    (w : World) (client : Client) (context : Context) (params : SwapHbarForTokenParams)
    (ledger : LedgerId) (routerId baseUrl t : String)
    (hLedger : client.ledgerId = some ledger)
    (hRouter : LedgerIdToRouterContractID ledger = some routerId)
    (hBase : LedgerIdToBaseUrl ledger = some baseUrl)
    (hOk : w.tokenInfoResp.ok = true)
    (hDec : strFalsy w.tokenInfoResp.json.decimals = false)
    (hT : w.tokenInfoResp.json.type = some t)
    (hne : t ≠ "") (hneq : t ≠ "FUNGIBLE_COMMON") :
    swapHbarForTokenExecute w client context params
      = (.plain "This token is not a Fungible Token",
         [Effect.httpGet (tokensInfoUrl baseUrl params.tokenId)]) := by
  unfold swapHbarForTokenExecute swapOrchestrate
  simp [requireClientLedger, hLedger, hRouter, hBase, fetchTokenInfoFromMirrorNode,
    hOk, hDec, notFungibleGuard, hT, hne, hneq]

/-- World for C5's amended witness: declared type NON_FUNGIBLE_UNIQUE. -/
def worldC5NFT : World :=
  ⟨⟨true, 200, "", ⟨some "NON_FUNGIBLE_UNIQUE", some "0"⟩⟩,
   ⟨true, 200, "", ⟨some [], none⟩⟩,
   ⟨true, 200, "", ⟨some 0⟩⟩,
   .ok (.executed "SUCCESS"), .ok (.executed "SUCCESS"),
   .ok "00000000000000000000000000000000000004d2", 1700000000000⟩

/-- Witness for C5's amended statement: a non-fungible token on testnet. -/
theorem C5_witness :
    swapHbarForTokenExecute worldC5NFT ⟨some .testnet⟩ ⟨.autonomous, some "0.0.5005"⟩
        ⟨1, "0.0.12345", none⟩
      = (.plain "This token is not a Fungible Token",
         [Effect.httpGet (tokensInfoUrl "https://testnet.mirrornode.hedera.com/api/v1" "0.0.12345")]) :=
  C5_amended_nonempty_type_short_circuits worldC5NFT ⟨some .testnet⟩
    ⟨.autonomous, some "0.0.5005"⟩ ⟨1, "0.0.12345", none⟩ .testnet
    "0.0.19264" "https://testnet.mirrornode.hedera.com/api/v1" "NON_FUNGIBLE_UNIQUE"
    rfl rfl rfl rfl rfl rfl (by decide) (by decide)

/-- C1: on the success path (supported network, fungible token, recipient
resolved and already associated), the only transaction handed to the mode
handler is the router call with gas 400000, payable amount equal to the
requested HBAR amount, function "swapExactETHForTokens", parameters in the
order [minimum output 0, path, recipient EVM address, deadline] with
deadline the invocation time in seconds plus 300, and the tool returns the
mode handler's result unchanged. -/
theorem C1_success_path_swap_transaction
    (w : World) (client : Client) (context : Context) (params : SwapHbarForTokenParams)
    (ledger : LedgerId) (routerId baseUrl recipient evm : String)
    (path : List String) (res : TxModeResult)
    (hLedger : client.ledgerId = some ledger)
    (hRouter : LedgerIdToRouterContractID ledger = some routerId)
    (hBase : LedgerIdToBaseUrl ledger = some baseUrl)
    (hOk : w.tokenInfoResp.ok = true)
    (hDec : strFalsy w.tokenInfoResp.json.decimals = false)
    (hFung : notFungibleGuard w.tokenInfoResp.json.type = false)
    (hRecip : resolveAccount params.recipientAccountId context = .ok recipient)
    (hTokensOk : w.accountTokensResp.ok = true)
    (hAccOk : w.accountResp.ok = true)
    (hAssoc : relationshipsHaveToken (selectRelationships w.accountTokensResp.json)
        params.tokenId = true)
    (hPath : resolveSwapPath ledger params.tokenId = .ok path)
    (hEvm : w.evmAddress = .ok evm)
    (hRes : w.swapTxResult = .ok res) :
    (swapHbarForTokenExecute w client context params).1 = .passthrough res
    ∧ builtTxs (swapHbarForTokenExecute w client context params).2
      = [.contractExec ⟨routerId, 400000, params.hbarAmount, "swapExactETHForTokens",
          [.uint256 0, .addressArray path, .address evm,
           .uint256 (w.nowMs / 1000 + 300)]⟩] := by
  unfold swapHbarForTokenExecute swapOrchestrate ensureTokenAssociation
  simp [requireClientLedger, hLedger, hRouter, hBase, fetchTokenInfoFromMirrorNode,
    hOk, hDec, hFung, hRecip, mirrorNodeAccountHasToken,
    mirrorNodeAccountMaxAutoAssociations, fetchFromMirrorNode, Except.map,
    hTokensOk, hAccOk, hAssoc, hPath, hEvm, hRes, builtTxs,
    DEFAULT_SWAP_GAS, DEFAULT_DEADLINE_SECONDS]

/-- World for C1: fungible token, recipient already associated, handler
answers with an executed SUCCESS result. -/
def worldC1 : World :=
  ⟨⟨true, 200, "", ⟨some "FUNGIBLE_COMMON", some "8"⟩⟩,
   ⟨true, 200, "", ⟨some [⟨some "0.0.12345"⟩], none⟩⟩,
   ⟨true, 200, "", ⟨some 0⟩⟩,
   .ok (.executed "SUCCESS"), .ok (.executed "SUCCESS"),
   .ok "00000000000000000000000000000000000004d2", 1700000000000⟩

/-- Witness for C1: a full concrete testnet run. -/
theorem C1_witness :
    (swapHbarForTokenExecute worldC1 ⟨some .testnet⟩ ⟨.autonomous, some "0.0.5005"⟩
        ⟨1, "0.0.12345", none⟩).1 = .passthrough (.executed "SUCCESS")
    ∧ builtTxs (swapHbarForTokenExecute worldC1 ⟨some .testnet⟩ ⟨.autonomous, some "0.0.5005"⟩
        ⟨1, "0.0.12345", none⟩).2
      = [.contractExec ⟨"0.0.19264", 400000, 1, "swapExactETHForTokens",
          [.uint256 0,
           .addressArray ["0000000000000000000000000000000000003ad2",
                          "0000000000000000000000000000000000003039"],
           .address "00000000000000000000000000000000000004d2",
           .uint256 1700000300]⟩] :=
  C1_success_path_swap_transaction worldC1 ⟨some .testnet⟩ ⟨.autonomous, some "0.0.5005"⟩
    ⟨1, "0.0.12345", none⟩ .testnet "0.0.19264"
    "https://testnet.mirrornode.hedera.com/api/v1" "0.0.5005"
    "00000000000000000000000000000000000004d2"
    ["0000000000000000000000000000000000003ad2",
     "0000000000000000000000000000000000003039"]
    (.executed "SUCCESS")
    rfl rfl rfl rfl rfl rfl rfl rfl rfl rfl rfl rfl rfl

/-- C9: when association is required (not associated, ceiling not -1), the
mode permits submission, and the executed association result carries a
non-success status, the tool fails with the association-failed error
carrying that status and the only transaction ever built is the
association one — no swap transaction is built. -/
theorem C9_failed_association_aborts_swap
    (w : World) (client : Client) (context : Context) (params : SwapHbarForTokenParams)
    (ledger : LedgerId) (routerId baseUrl recipient st : String)
    (hLedger : client.ledgerId = some ledger)
    (hRouter : LedgerIdToRouterContractID ledger = some routerId)
    (hBase : LedgerIdToBaseUrl ledger = some baseUrl)
    (hOk : w.tokenInfoResp.ok = true)
    (hDec : strFalsy w.tokenInfoResp.json.decimals = false)
    (hFung : notFungibleGuard w.tokenInfoResp.json.type = false)
    (hRecip : resolveAccount params.recipientAccountId context = .ok recipient)
    (hTokensOk : w.accountTokensResp.ok = true)
    (hAccOk : w.accountResp.ok = true)
    (hNot : relationshipsHaveToken (selectRelationships w.accountTokensResp.json)
        params.tokenId = false)
    (hMax : w.accountResp.json.max_automatic_token_associations.getD 0 ≠ -1)
    (hMode : context.mode = AgentMode.autonomous)
    (hAssocRes : w.assocTxResult = .ok (.executed st))
    (hSt : st ≠ "SUCCESS") :
    (swapHbarForTokenExecute w client context params).1
      = .errorResult ("Token association failed: " ++ st)
    ∧ builtTxs (swapHbarForTokenExecute w client context params).2
      = [.associate ⟨recipient, [params.tokenId], "Auto-associate for SaucerSwap"⟩] := by
  unfold swapHbarForTokenExecute swapOrchestrate ensureTokenAssociation
  simp [requireClientLedger, hLedger, hRouter, hBase, fetchTokenInfoFromMirrorNode,
    hOk, hDec, hFung, hRecip, mirrorNodeAccountHasToken,
    mirrorNodeAccountMaxAutoAssociations, fetchFromMirrorNode, Except.map,
    hTokensOk, hAccOk, hNot, hMax, hMode, hAssocRes, hSt, builtTxs]

/-- World for C9: empty relationship list, ceiling 0, association result
executed with status INVALID_SIGNATURE. -/
def worldC9 : World :=
  ⟨⟨true, 200, "", ⟨some "FUNGIBLE_COMMON", some "8"⟩⟩,
   ⟨true, 200, "", ⟨some [], none⟩⟩,
   ⟨true, 200, "", ⟨some 0⟩⟩,
   .ok (.executed "INVALID_SIGNATURE"), .ok (.executed "SUCCESS"),
   .ok "00000000000000000000000000000000000004d2", 1700000000000⟩

/-- Witness for C9: a concrete autonomous-mode run whose association
transaction reports INVALID_SIGNATURE. -/
theorem C9_witness :
    (swapHbarForTokenExecute worldC9 ⟨some .testnet⟩ ⟨.autonomous, some "0.0.5005"⟩
        ⟨1, "0.0.12345", none⟩).1
      = .errorResult ("Token association failed: " ++ "INVALID_SIGNATURE")
    ∧ builtTxs (swapHbarForTokenExecute worldC9 ⟨some .testnet⟩ ⟨.autonomous, some "0.0.5005"⟩
        ⟨1, "0.0.12345", none⟩).2
      = [.associate ⟨"0.0.5005", ["0.0.12345"], "Auto-associate for SaucerSwap"⟩] :=
  C9_failed_association_aborts_swap worldC9 ⟨some .testnet⟩ ⟨.autonomous, some "0.0.5005"⟩
    ⟨1, "0.0.12345", none⟩ .testnet "0.0.19264"
    "https://testnet.mirrornode.hedera.com/api/v1" "0.0.5005" "INVALID_SIGNATURE"
    rfl rfl rfl rfl rfl rfl rfl rfl rfl rfl (by decide) rfl rfl (by decide)

end SaucerSwap
